import Mathlib

/-!
Verification of the Periodic Table Explorer (src/main.py) against its
natural-language specification.  Python values that may be null or of
several runtime types are embedded as `PyVal`; pandas rows become Lean
structures with `PyVal` fields; the fallible pieces of the code return
`Except`.  All definitions are executable so that concrete runs can be
settled by `decide` / `rfl`.
-/

set_option maxHeartbeats 1000000

namespace PeriodicTable

/-- A dynamic Python/JSON value: `none` stands for JSON `null`, a missing
dict key materialised as `NaN`/`None` by pandas, or Python `None`. -/
inductive PyVal where
  | none
  | int (n : Int)
  | float (q : Rat)
  | str (s : String)
deriving DecidableEq, Repr

/-- Value comparison as pandas performs it inside `isin`/`==` lookups:
numbers compare numerically across int/float, strings by equality, and —
a documented pandas peculiarity of `isin` — null matches null.  (Plain
Python `==` on `NaN` is false, but `Series.isin` uses a hashtable that
treats nulls as equal; the code under study only compares values through
`isin` and through `== n` / `in ....values` membership with non-null
`n`, where the two semantics agree.) -/
def pyMatch : PyVal → PyVal → Bool
  | PyVal.none, PyVal.none => true
  | PyVal.int a, PyVal.int b => a == b
  | PyVal.int a, PyVal.float b => (a : Rat) == b
  | PyVal.float a, PyVal.int b => a == (b : Rat)
  | PyVal.float a, PyVal.float b => a == b
  | PyVal.str a, PyVal.str b => a == b
  | _, _ => false

/-- Is the value null (Python `None` / pandas `NaN`)? -/
def pyIsNull : PyVal → Bool
  | PyVal.none => true
  | _ => false

/-- One element record as the code sees it: a pandas row / JSON object
with dynamically typed fields.  `hasEC` records whether the JSON object
carried the `electron_configuration` key at all (pandas only creates the
column when at least one record has the key). -/
structure RawElem where
  name : PyVal
  symbol : PyVal
  number : PyVal
  category : PyVal
  period : PyVal
  group : PyVal
  phase : PyVal
  atomic_mass : PyVal
  electron_configuration : PyVal
  hasEC : Bool
deriving DecidableEq, Repr

/-! ## Kernel-friendly string primitives

Core's `String.toLower`/`String.splitOn` are defined by well-founded
recursion over byte positions and do not reduce inside the kernel, so the
embedding uses structurally recursive equivalents over `String.data`. -/

/-- ASCII lowercase of one character, as Python `str.lower` acts on the
ASCII labels involved here. -/
def lowerChar (c : Char) : Char :=
  if 'A' ≤ c && c ≤ 'Z' then Char.ofNat (c.toNat + 32) else c

/-- Python `s.lower()` (ASCII). -/
def pyLower (s : String) : String :=
  String.mk (s.data.map lowerChar)

/-- Does `l` start with `pat`? -/
def startsWithList : List Char → List Char → Bool
  | [], _ => true
  | _ :: _, [] => false
  | p :: ps, c :: cs => p == c && startsWithList ps cs

/-- Does `pat` occur as a contiguous sublist of the second argument? -/
def containsList (pat : List Char) : List Char → Bool
  | [] => pat.isEmpty
  | c :: cs => startsWithList pat (c :: cs) || containsList pat cs

/-- Python `pat in s` substring test. -/
def strContains (s pat : String) : Bool :=
  containsList pat.data s.data

/-- Python `s.split(sep)[0]`: the portion of `s` before the first
occurrence of the (single-character) separator. -/
def beforeFirst (s : String) (sep : Char) : String :=
  String.mk (s.data.takeWhile (fun c => c != sep))

/-! ## Category Color Resolver (src/main.py: AppState, lines 199-219) -/

/-- The fixed category→color table `AppState.category_colors`
(src/main.py lines 203-215), in source order. -/
def category_colors : List (String × String) :=
  [("alkali metal", "#ff8a65"),
   ("alkaline earth metal", "#ffb74d"),
   ("transition metal", "#ffd54f"),
   ("post-transition metal", "#dce775"),
   ("metalloid", "#aed581"),
   ("nonmetal", "#4fc3f7"),
   ("halogen", "#80deea"),
   ("noble gas", "#9575cd"),
   ("lanthanoid", "#f48fb1"),
   ("actinoid", "#f06292"),
   ("unknown", "#e0e0e0")]

/-- Dict lookup `self.category_colors.get(key)` on the color table. -/
def lookupColor (k : String) : Option String :=
  (category_colors.find? (fun p => p.1 == k)).map Prod.snd

/-- `AppState.get_element_color` (src/main.py lines 217-219):
`self.category_colors.get(category.lower(), self.category_colors["unknown"])`. -/
def get_element_color (category : String) : String :=
  (lookupColor (pyLower category)).getD ((lookupColor "unknown").getD "")

/-- `get_element_color` as called on a dynamically typed category value:
`category.lower()` raises `AttributeError` when `category` is not a
string (e.g. `None`/`NaN`). -/
def get_element_color_py : PyVal → Except String String
  | PyVal.str s => Except.ok (get_element_color s)
  | _ => Except.error "AttributeError: object has no attribute lower"

/-! ## The specification's color-resolution chain (spec section 4.2),
kept separate from the code's resolver so the two can be compared. -/

/-- Modelled from the spec: normalization step (a) of section 4.2,
"collapse hyphens to spaces" (character-wise). -/
def collapseHyphens (s : String) : String :=
  String.mk (s.data.map (fun c => if c == '-' then ' ' else c))

/-- Modelled from the spec: the ordered fallback chain of section 4.2
reduced to the table key (or heuristic key) it selects: (a) lowercase and
collapse hyphens; (b) exact table match; (c) match the portion before the
first comma; (d) substring heuristics "nonmetal" then "metal";
(e) otherwise no key (the unknown color). -/
def colorKey_spec (s : String) : Option String :=
  let n := collapseHyphens (pyLower s)
  if (lookupColor n).isSome then some n
  else
    let pre := beforeFirst n ','
    if (lookupColor pre).isSome then some pre
    else if strContains n "nonmetal" then some "nonmetal"
    else if strContains n "metal" then some "metal"
    else none

/-- Modelled from the spec: the "generic metal color" of step (d) is not
pinned to a concrete value by the spec; a marker value stands for it. -/
def generic_metal_color : String := "#generic-metal"

/-- Modelled from the spec: the full color resolution of section 4.2. -/
def colorOf_spec (s : String) : String :=
  match colorKey_spec s with
  | some k => if k = "metal" then generic_metal_color else (lookupColor k).getD "#e0e0e0"
  | Option.none => "#e0e0e0"

/-! ## Electron-configuration formatting (src/main.py lines 285-296) -/

/-- One token of `format_electron_configuration`: if the token starts
with a digit, wrap `part[2:]` in superscript markers after `part[:2]`. -/
def format_ec_part (part : String) : String :=
  match part.data with
  | [] => part
  | c :: _ =>
    if c.isDigit then
      String.mk (part.data.take 2) ++ "<sup>" ++ String.mk (part.data.drop 2) ++ "</sup>"
    else part

/-- Python `config.split()`: split on whitespace runs, dropping empties. -/
def pySplitWs (s : String) : List String :=
  ((s.data.splitOnP (fun c => c.isWhitespace)).filter (fun l => !l.isEmpty)).map String.mk

/-- `format_electron_configuration` (src/main.py lines 285-296). -/
def format_electron_configuration (config : String) : String :=
  " ".intercalate ((pySplitWs config).map format_ec_part)

/-! ## Dataset Loader (src/main.py lines 224-283) -/

/-- A loaded row: the raw record plus the `electron_display` column the
success path adds (`none` when the column is absent, as in the fallback
dataset). -/
structure OutRow where
  raw : RawElem
  electron_display : Option String
deriving DecidableEq, Repr

/-- Result of `load_element_data`: whether `st.warning` was emitted, and
the rows of the returned DataFrame. -/
structure LoadResult where
  warned : Bool
  rows : List OutRow
deriving DecidableEq, Repr

/-- The parsed body of a 200 response: malformed JSON, JSON without the
`elements` key, or a list of element records. -/
inductive Payload where
  | malformed
  | missingKey
  | elements (els : List RawElem)
deriving DecidableEq, Repr

/-- Outcome of `requests.get(url)`: the request itself raised, or a
response with a status code and body arrived. -/
inductive FetchOutcome where
  | networkError
  | fetched (status : Int) (payload : Payload)
deriving DecidableEq, Repr

/-- Fallback Hydrogen record (src/main.py lines 270-271). -/
def fbHydrogen : RawElem :=
  ⟨PyVal.str "Hydrogen", PyVal.str "H", PyVal.int 1, PyVal.str "nonmetal",
   PyVal.int 1, PyVal.int 1, PyVal.str "gas", PyVal.float (mkRat 1008 1000), PyVal.str "1s1", true⟩

/-- Fallback Helium record (src/main.py lines 272-273). -/
def fbHelium : RawElem :=
  ⟨PyVal.str "Helium", PyVal.str "He", PyVal.int 2, PyVal.str "noble gas",
   PyVal.int 1, PyVal.int 18, PyVal.str "gas", PyVal.float (mkRat 40026 10000), PyVal.str "1s2", true⟩

/-- Fallback Lithium record (src/main.py lines 276-277). -/
def fbLithium : RawElem :=
  ⟨PyVal.str "Lithium", PyVal.str "Li", PyVal.int 3, PyVal.str "alkali metal",
   PyVal.int 2, PyVal.int 1, PyVal.str "solid", PyVal.float (mkRat 694 100), PyVal.str "1s2 2s1", true⟩

/-- Fallback Carbon record (src/main.py lines 278-279). -/
def fbCarbon : RawElem :=
  ⟨PyVal.str "Carbon", PyVal.str "C", PyVal.int 6, PyVal.str "nonmetal",
   PyVal.int 2, PyVal.int 14, PyVal.str "solid", PyVal.float (mkRat 12011 1000), PyVal.str "1s2 2s2 2p2", true⟩

/-- Fallback Oxygen record (src/main.py lines 280-281). -/
def fbOxygen : RawElem :=
  ⟨PyVal.str "Oxygen", PyVal.str "O", PyVal.int 8, PyVal.str "nonmetal",
   PyVal.int 2, PyVal.int 16, PyVal.str "gas", PyVal.float (mkRat 15999 1000), PyVal.str "1s2 2s2 2p4", true⟩

/-- The built-in fallback dataset (src/main.py lines 266-283). -/
def fallback_elements : List RawElem :=
  [fbHydrogen, fbHelium, fbLithium, fbCarbon, fbOxygen]

/-- The loader's failure branch (src/main.py lines 261-283): warn and
return the fallback DataFrame, which has no `electron_display` column. -/
def fallbackResult : LoadResult :=
  ⟨true, fallback_elements.map (fun e => ⟨e, Option.none⟩)⟩

/-- The success path's `electron_display` column value for one record:
`format_electron_configuration(x) if isinstance(x, str) else ""`. -/
def addElectronDisplay (e : RawElem) : OutRow :=
  ⟨e, some (match e.electron_configuration with
            | PyVal.str s => format_electron_configuration s
            | _ => "")⟩

/-- pandas creates the `electron_configuration` column only when at least
one record carries the key; otherwise line 251 raises `KeyError`. -/
def ecColumnPresent (els : List RawElem) : Bool :=
  els.any (fun r => r.hasEC)

/-- `load_element_data` (src/main.py lines 224-283) as a function of the
fetch outcome: raise (and hence fall back) on network error, non-200
status, malformed JSON or a missing `elements` key; on success return the
records unchanged with the `electron_display` column added. -/
def load_element_data : FetchOutcome → LoadResult
  | FetchOutcome.networkError => fallbackResult
  | FetchOutcome.fetched status payload =>
    if status != 200 then fallbackResult
    else
      match payload with
      | Payload.malformed => fallbackResult
      | Payload.missingKey => fallbackResult
      | Payload.elements els =>
        if ecColumnPresent els then ⟨false, els.map addElectronDisplay⟩
        else fallbackResult

/-- The four load-failure modes named in spec sections 4.1/6: network
failure, non-200 status, malformed JSON, missing `elements` key. -/
def isLoadFailure : FetchOutcome → Bool
  | FetchOutcome.networkError => true
  | FetchOutcome.fetched status payload =>
    status != 200 ||
      (match payload with
       | Payload.malformed => true
       | Payload.missingKey => true
       | Payload.elements _ => false)

/-! ## Selection State (src/main.py lines 881-887) -/

/-- The click-handling block of `main` (src/main.py lines 881-887): a
falsy session value (no click, or id 0) is skipped; otherwise the first
row whose `number` equals the clicked id becomes the selection, and an id
matching no row leaves the selection unchanged. -/
def process_click (df : List RawElem) (cur : Option RawElem) (clicked : Option Int) :
    Option RawElem :=
  match clicked with
  | Option.none => cur
  | some n =>
    if n == 0 then cur
    else
      match df.find? (fun e => pyMatch e.number (PyVal.int n)) with
      | some e => some e
      | Option.none => cur

/-! ## Details Renderer (src/main.py lines 298-325 and 699-709) -/

/-- The data interpolated into the `create_element_card` header
(src/main.py lines 298-325). -/
structure CardHeader where
  symbol : String
  number : Int
  atomic_mass : Rat
  name : String
  category : String
deriving DecidableEq, Repr

/-- `create_element_card` header extraction: `element['symbol']`,
`element['number']`, `{element['atomic_mass']:.4f}` (requires a number),
`element['name']`, `element['category'].title()` (requires a string);
any other runtime shape raises. -/
def create_element_card_header (e : RawElem) : Except String CardHeader :=
  match e.symbol, e.number, e.atomic_mass, e.name, e.category with
  | PyVal.str s, PyVal.int n, PyVal.float m, PyVal.str nm, PyVal.str c =>
    Except.ok ⟨s, n, m, nm, c⟩
  | PyVal.str s, PyVal.int n, PyVal.int m, PyVal.str nm, PyVal.str c =>
    Except.ok ⟨s, n, (m : Rat), nm, c⟩
  | _, _, _, _, _ => Except.error "TypeError"

/-- The details view: the prompt-to-select placeholder, or the element
card. -/
inductive DetailsView where
  | placeholder
  | card (h : CardHeader)
deriving DecidableEq, Repr

/-- `display_element_details` (src/main.py lines 699-709): `None` yields
the `st.info` prompt and returns before touching any element field;
otherwise the element card is built. -/
def display_element_details : Option RawElem → Except String DetailsView
  | Option.none => Except.ok DetailsView.placeholder
  | some e => (create_element_card_header e).map DetailsView.card

/-! ## Table Layout Builder (src/main.py lines 509-697) -/

/-- The placeholder dict the grid builder substitutes at (period 6,
column 3) (src/main.py line 539). -/
def lanthanidesPlaceholder : RawElem :=
  ⟨PyVal.str "Lanthanides", PyVal.str "La-Lu", PyVal.str "57-71", PyVal.str "lanthanoid",
   PyVal.none, PyVal.none, PyVal.none, PyVal.none, PyVal.none, false⟩

/-- The placeholder dict the grid builder substitutes at (period 7,
column 3) (src/main.py line 541). -/
def actinidesPlaceholder : RawElem :=
  ⟨PyVal.str "Actinides", PyVal.str "Ac-Lr", PyVal.str "89-103", PyVal.str "actinoid",
   PyVal.none, PyVal.none, PyVal.none, PyVal.none, PyVal.none, false⟩

/-- The occupant of main-block cell (row, col) in
`create_periodic_table_grid` (src/main.py lines 528-584): the first
element with `period == row` and `group == col`, except that cells
(6,3) and (7,3) are unconditionally replaced by the placeholder dicts;
`none` renders as an empty cell. -/
def mainCell (df : List RawElem) (row col : Nat) : Option RawElem :=
  if row == 6 && col == 3 then some lanthanidesPlaceholder
  else if row == 7 && col == 3 then some actinidesPlaceholder
  else df.find? (fun e =>
    pyMatch e.period (PyVal.int (Int.ofNat row)) && pyMatch e.group (PyVal.int (Int.ofNat col)))

/-- The dedicated lanthanide row (src/main.py lines 589-631): one cell
per `num in range(57, 72)`, holding the first element with that
`number`; numbers with no element produce no cell. -/
def lanthanideRow (df : List RawElem) : List RawElem :=
  ((List.range 15).map (fun i => 57 + i)).filterMap
    (fun n => df.find? (fun e => pyMatch e.number (PyVal.int (Int.ofNat n))))

/-- The dedicated actinide row (src/main.py lines 633-675): `num in
range(89, 104)`. -/
def actinideRow (df : List RawElem) : List RawElem :=
  ((List.range 15).map (fun i => 89 + i)).filterMap
    (fun n => df.find? (fun e => pyMatch e.number (PyVal.int (Int.ofNat n))))

/-- The (period, group) main-block positions claimed by the dataset's
elements: integer period 1-9 and group 1-18. -/
def mainBlockPositions (df : List RawElem) : List (Int × Int) :=
  df.filterMap (fun e =>
    match e.period, e.group with
    | PyVal.int p, PyVal.int g =>
      if 1 ≤ p && p ≤ 9 && 1 ≤ g && g ≤ 18 then some (p, g) else Option.none
    | _, _ => Option.none)

/-! ## The reference 118-element dataset (spec section 3).

The dataset itself is fetched from an external URL and is not part of the
repository, so it is modelled from the spec. -/

/-- Modelled from the spec: the standard main-block position (period,
group) of element `n`, with no usable group for the lanthanides 57-71 and
actinides 89-103 (spec section 3: "group may be absent for
lanthanide/actinide members"). -/
def refPos (n : Nat) : Option (Nat × Nat) :=
  if n == 1 then some (1, 1)
  else if n == 2 then some (1, 18)
  else if n == 3 then some (2, 1)
  else if n == 4 then some (2, 2)
  else if 5 ≤ n && n ≤ 10 then some (2, n + 8)
  else if n == 11 then some (3, 1)
  else if n == 12 then some (3, 2)
  else if 13 ≤ n && n ≤ 18 then some (3, n)
  else if 19 ≤ n && n ≤ 36 then some (4, n - 18)
  else if 37 ≤ n && n ≤ 54 then some (5, n - 36)
  else if n == 55 then some (6, 1)
  else if n == 56 then some (6, 2)
  else if 57 ≤ n && n ≤ 71 then Option.none
  else if 72 ≤ n && n ≤ 86 then some (6, n - 68)
  else if n == 87 then some (7, 1)
  else if n == 88 then some (7, 2)
  else if 89 ≤ n && n ≤ 103 then Option.none
  else if 104 ≤ n && n ≤ 118 then some (7, n - 100)
  else Option.none

/-- Modelled from the spec: the period of the group-less elements (the
lanthanides sit in period 6, the actinides in period 7). -/
def refPeriodOnly (n : Nat) : Nat :=
  if 57 ≤ n && n ≤ 71 then 6 else 7

/-- Modelled from the spec: one record of the reference dataset; only
number/period/group drive the layout claims. -/
def mkRefElem (n : Nat) : RawElem :=
  match refPos n with
  | some (p, g) =>
    ⟨PyVal.str ("element" ++ toString n), PyVal.str ("E" ++ toString n),
     PyVal.int (Int.ofNat n), PyVal.str "unknown", PyVal.int (Int.ofNat p),
     PyVal.int (Int.ofNat g), PyVal.str "solid", PyVal.float (mkRat 1 1), PyVal.none, false⟩
  | Option.none =>
    ⟨PyVal.str ("element" ++ toString n), PyVal.str ("E" ++ toString n),
     PyVal.int (Int.ofNat n), PyVal.str "unknown", PyVal.int (Int.ofNat (refPeriodOnly n)),
     PyVal.none, PyVal.str "solid", PyVal.float (mkRat 1 1), PyVal.none, false⟩

/-- Modelled from the spec: the reference 118-element dataset, numbers
1..118 in order. -/
def refDataset : List RawElem :=
  ((List.range 118).map (fun i => i + 1)).map mkRefElem

/-! ## Sidebar filters (src/main.py lines 834-855) -/

/-- Accumulator loop of `uniqueVals`: keep the first occurrence of each
value (`pyMatch`-equality, so a single null is kept). -/
def uniqueValsAux : List PyVal → List PyVal → List PyVal
  | acc, [] => acc.reverse
  | acc, v :: rest =>
    if acc.any (fun w => pyMatch w v) then uniqueValsAux acc rest
    else uniqueValsAux (v :: acc) rest

/-- pandas `Series.unique()`: first occurrences, with a single null kept
if present.  (The source additionally sorts the options for display,
which does not affect membership.) -/
def uniqueVals (l : List PyVal) : List PyVal :=
  uniqueValsAux [] l

/-- The category filter options (src/main.py line 834):
`elements_df['category'].unique()` — note: no `dropna()`. -/
def categoryOptions (df : List RawElem) : List PyVal :=
  uniqueVals (df.map (fun e => e.category))

/-- The phase filter options (src/main.py line 838):
`elements_df['phase'].dropna().unique()`. -/
def phaseOptions (df : List RawElem) : List PyVal :=
  uniqueVals ((df.map (fun e => e.phase)).filter (fun v => !pyIsNull v))

/-- The period filter options (src/main.py line 842):
`elements_df['period'].dropna().unique()`. -/
def periodOptions (df : List RawElem) : List PyVal :=
  uniqueVals ((df.map (fun e => e.period)).filter (fun v => !pyIsNull v))

/-- The group filter options (src/main.py line 846):
`elements_df['group'].dropna().unique()`. -/
def groupOptions (df : List RawElem) : List PyVal :=
  uniqueVals ((df.map (fun e => e.group)).filter (fun v => !pyIsNull v))

/-- pandas `Series.isin(values)` for one cell. -/
def pandasIsin (v : PyVal) (vs : List PyVal) : Bool :=
  vs.any (fun w => pyMatch v w)

/-- The filter application (src/main.py lines 850-855): conjunction of
the four `isin` conditions. -/
def filter_elements (df : List RawElem)
    (selCats selPhases selPeriods selGroups : List PyVal) : List RawElem :=
  df.filter (fun e =>
    pandasIsin e.category selCats && pandasIsin e.phase selPhases &&
    pandasIsin e.period selPeriods && pandasIsin e.group selGroups)

/-! ## Concrete sample records for the counterexamples -/

/-- A well-formed record whose `period` and `category` are null and whose
`electron_configuration` is a string: a successful fetch can contain it. -/
def sampleRecord : RawElem :=
  ⟨PyVal.str "X", PyVal.str "Xx", PyVal.int 5, PyVal.none, PyVal.none,
   PyVal.int 1, PyVal.str "gas", PyVal.float (mkRat 1 1), PyVal.str "1s1", true⟩

/-- A record with a null category but non-null phase/period/group, for
the filter counterexample. -/
def nullCatRecord : RawElem :=
  ⟨PyVal.str "Y", PyVal.str "Yy", PyVal.int 7, PyVal.none, PyVal.int 1,
   PyVal.int 1, PyVal.str "gas", PyVal.float (mkRat 1 1), PyVal.none, false⟩

/-- A one-element dataset whose only category value is null, so that
"every available category value" is the null option itself. -/
def nullCatDataset : List RawElem := [nullCatRecord]

/-- `numberPos e` says the record's `number` is a positive integer (the
data-model invariant of spec section 3). -/
def numberPos (e : RawElem) : Bool :=
  match e.number with
  | PyVal.int m => 0 < m
  | _ => false

end PeriodicTable

namespace PeriodicTable

/-! ## Shared helper lemmas -/

/-- Everything produced by `uniqueValsAux` came from the accumulator or
the input list. -/
theorem mem_uniqueValsAux {x : PyVal} :
    ∀ (l acc : List PyVal), x ∈ uniqueValsAux acc l → x ∈ acc ∨ x ∈ l := by
  intro l
  induction l with
  | nil =>
    intro acc h
    simp only [uniqueValsAux, List.mem_reverse] at h
    exact Or.inl h
  | cons v rest ih =>
    intro acc h
    simp only [uniqueValsAux] at h
    by_cases hv : acc.any (fun w => pyMatch w v) = true
    · rw [if_pos hv] at h
      rcases ih acc h with h1 | h1
      · exact Or.inl h1
      · exact Or.inr (List.mem_cons_of_mem _ h1)
    · rw [if_neg hv] at h
      rcases ih (v :: acc) h with h1 | h1
      · rcases List.mem_cons.mp h1 with rfl | h2
        · exact Or.inr (List.mem_cons_self _ _)
        · exact Or.inl h2
      · exact Or.inr (List.mem_cons_of_mem _ h1)

/-- Membership in `uniqueVals` implies membership in the input. -/
theorem mem_of_mem_uniqueVals {x : PyVal} {l : List PyVal}
    (h : x ∈ uniqueVals l) : x ∈ l := by
  rcases mem_uniqueValsAux l [] h with h1 | h1
  · cases h1
  · exact h1

/-- Only the null value `pyMatch`-matches null. -/
theorem eq_none_of_pyMatch_none {w : PyVal} (h : pyMatch PyVal.none w = true) :
    w = PyVal.none := by
  cases w <;> simp [pyMatch] at h ⊢

/-- A value with `pyIsNull` set is the null value. -/
theorem eq_none_of_pyIsNull {v : PyVal} (h : pyIsNull v = true) : v = PyVal.none := by
  cases v <;> simp [pyIsNull] at h ⊢

/-! ## C1 — the Color Resolver fallback chain -/

/-- C1 counterexample: the claim says every category resolves through the
ordered chain of spec section 4.2, under which any label containing
"nonmetal" receives the nonmetal color; but the code's resolver maps the
compound label "diatomic nonmetal" to the unknown color, not to the
chain's nonmetal color, so the chain's comma-split and substring steps
are absent from the code. -/
theorem C1_color_chain_counterexample :
    get_element_color "diatomic nonmetal" = "#e0e0e0" ∧
    colorOf_spec "diatomic nonmetal" = "#4fc3f7" ∧
    lookupColor "nonmetal" = some "#4fc3f7" ∧
    get_element_color "diatomic nonmetal" ≠ colorOf_spec "diatomic nonmetal" := by
  refine ⟨by decide, by decide, by decide, by decide⟩

/-- C1 amended: the resolver's whole chain is (a) lowercase the input
(no hyphen collapsing), (b) exact match against the fixed table, (e) on
miss return the table's "unknown" color; the comma-split and substring
steps of the claim are absent. -/
theorem C1_color_chain_amended :
    (∀ k c, (k, c) ∈ category_colors → ∀ s, pyLower s = k → get_element_color s = c) ∧
    (∀ s, lookupColor (pyLower s) = Option.none → get_element_color s = "#e0e0e0") := by
  constructor
  · intro k c hkc s hs
    unfold get_element_color
    rw [hs]
    fin_cases hkc <;> decide
  · intro s hs
    unfold get_element_color
    rw [hs]
    decide

/-- C1 witness: the amended chain at concrete inputs — an exact (case-
normalized) table hit, and a compound label falling to the unknown
color. -/
theorem C1_color_chain_witness :
    get_element_color "Noble Gas" = "#9575cd" ∧
    get_element_color "unknown, probably transition metal" = "#e0e0e0" := by
  constructor
  · exact C1_color_chain_amended.1 "noble gas" "#9575cd" (by decide) "Noble Gas" (by decide)
  · exact C1_color_chain_amended.2 "unknown, probably transition metal" (by decide)

/-! ## C2 — totality of the Color Resolver -/

/-- C2 counterexample: the claim says a missing/non-string input is
treated as the literal category "unknown" rather than causing a failure,
but `category.lower()` on a null value raises `AttributeError`. -/
theorem C2_total_counterexample :
    get_element_color_py PyVal.none =
      Except.error "AttributeError: object has no attribute lower" ∧
    get_element_color_py PyVal.none ≠ Except.ok (get_element_color "unknown") := by
  refine ⟨rfl, by simp [get_element_color_py]⟩

/-- C2 amended: the resolver is total on string inputs — for every string
it returns a defined color, always one of the fixed table's colors (the
"unknown" color on a miss); a null/non-string category value raises
`AttributeError` instead of being treated as "unknown". -/
theorem C2_total_amended :
    ∀ s : String,
      get_element_color_py (PyVal.str s) = Except.ok (get_element_color s) ∧
      get_element_color s ∈ category_colors.map Prod.snd := by
  intro s
  refine ⟨rfl, ?_⟩
  unfold get_element_color
  cases h : lookupColor (pyLower s) with
  | none =>
    simp only [Option.getD]
    decide
  | some c =>
    simp only [Option.getD]
    unfold lookupColor at h
    rcases Option.map_eq_some'.mp h with ⟨p, hp, rfl⟩
    exact List.mem_map_of_mem Prod.snd (List.mem_of_find?_eq_some hp)

/-! ## C7 — the compound "unknown, ..." label -/

/-- C7: `colorOf("unknown, probably transition metal")` returns the same
color as `colorOf("unknown")`, and not the transition-metal color
(`"#ffd54f"` in the table). -/
theorem C7_compound_unknown_label :
    get_element_color "unknown, probably transition metal" = get_element_color "unknown" ∧
    lookupColor "transition metal" = some "#ffd54f" ∧
    get_element_color "unknown, probably transition metal" ≠ "#ffd54f" := by
  refine ⟨by decide, by decide, by decide⟩

/-! ## C3 — click-event validation -/

/-- C3: for a dataset whose element numbers are positive integers (the
data-model invariant of spec section 3), a click event carrying an
integer `n` matching no element leaves the selection unchanged, and a
click matching some element transitions the selection to that element
(`Selected(n)`). -/
theorem C3_click_validation (df : List RawElem) (cur : Option RawElem) (n : Int)
    (hpos : ∀ e ∈ df, numberPos e = true) :
    ((∀ e ∈ df, pyMatch e.number (PyVal.int n) = false) →
      process_click df cur (some n) = cur) ∧
    ((∃ e ∈ df, pyMatch e.number (PyVal.int n) = true) →
      ∃ e ∈ df, pyMatch e.number (PyVal.int n) = true ∧
        process_click df cur (some n) = some e) := by
  constructor
  · intro hnone
    simp only [process_click]
    by_cases h0 : (n == 0) = true
    · rw [if_pos h0]
    · rw [if_neg h0]
      rw [List.find?_eq_none.mpr (fun e he => by simp [hnone e he])]
  · rintro ⟨e, he, hme⟩
    have hn0 : ¬(n == 0) = true := by
      have hp := hpos e he
      unfold numberPos at hp
      cases hnum : e.number with
      | int m =>
        rw [hnum] at hp hme
        simp only [pyMatch, beq_iff_eq] at hme
        subst hme
        simp only [decide_eq_true_eq] at hp
        simp only [beq_iff_eq]
        omega
      | none => rw [hnum] at hp; simp at hp
      | float q => rw [hnum] at hp; simp at hp
      | str s => rw [hnum] at hp; simp at hp
    have hsome : (df.find? (fun x => pyMatch x.number (PyVal.int n))).isSome := by
      rw [List.find?_isSome]
      exact ⟨e, he, hme⟩
    rcases Option.isSome_iff_exists.mp hsome with ⟨w, hw⟩
    have hpw := List.find?_some hw
    refine ⟨w, List.mem_of_find?_eq_some hw, hpw, ?_⟩
    simp only [process_click]
    rw [if_neg hn0, hw]

/-- C3 witness: on the concrete fallback dataset, clicking the unknown id
9999 from `NoSelection` leaves the selection unchanged, and clicking the
valid id 6 (Carbon) transitions to that element. -/
theorem C3_click_validation_witness :
    process_click fallback_elements Option.none (some 9999) = Option.none ∧
    ∃ e ∈ fallback_elements, pyMatch e.number (PyVal.int 6) = true ∧
      process_click fallback_elements Option.none (some 6) = some e := by
  constructor
  · exact (C3_click_validation fallback_elements Option.none 9999 (by decide)).1 (by decide)
  · exact (C3_click_validation fallback_elements Option.none 6 (by decide)).2 (by decide)

/-! ## C4 — loader fallback on failure -/

/-- C4: on any of the four load-failure modes (network failure, non-200
status, malformed JSON, missing `elements` key) the loader emits a
warning and returns the built-in fallback dataset, which has 5 elements
(at least 5), spans at least two categories and two phases, and contains
Hydrogen (number 1, symbol "H") and Helium (number 2, symbol "He"); no
failure escapes this boundary. -/
theorem C4_loader_fallback (f : FetchOutcome) (h : isLoadFailure f = true) :
    load_element_data f = fallbackResult ∧
    fallbackResult.warned = true ∧
    5 ≤ fallback_elements.length ∧
    2 ≤ (uniqueVals (fallback_elements.map (fun e => e.category))).length ∧
    2 ≤ (uniqueVals (fallback_elements.map (fun e => e.phase))).length ∧
    fallback_elements.find? (fun e => pyMatch e.number (PyVal.int 1)) = some fbHydrogen ∧
    fbHydrogen.symbol = PyVal.str "H" ∧
    fallback_elements.find? (fun e => pyMatch e.number (PyVal.int 2)) = some fbHelium ∧
    fbHelium.symbol = PyVal.str "He" := by
  refine ⟨?_, by decide, by decide, by decide, by decide, by decide, by decide, by decide,
    by decide⟩
  cases f with
  | networkError => rfl
  | fetched status payload =>
    simp only [load_element_data]
    simp only [isLoadFailure] at h
    by_cases hs : (status != 200) = true
    · rw [if_pos hs]
    · rw [if_neg hs]
      rw [Bool.or_eq_true] at h
      rcases h with h | h
      · exact absurd h hs
      · cases payload with
        | malformed => rfl
        | missingKey => rfl
        | elements els => simp at h

/-- C4 witness: the theorem at the concrete network-failure outcome. -/
theorem C4_loader_fallback_witness :
    load_element_data FetchOutcome.networkError = fallbackResult :=
  (C4_loader_fallback FetchOutcome.networkError (by decide)).1

/-! ## C5 — normalization on a successful fetch -/

/-- C5 counterexample: the claim says the loader coerces number/period/
group to integers, defaults missing numeric fields to 0 and missing
strings to "Unknown"/"unknown"; but a successful fetch containing a
record with null `period` and null `category` is returned with those
fields still null — no coercion or defaulting happens. -/
theorem C5_normalization_counterexample :
    (load_element_data (FetchOutcome.fetched 200 (Payload.elements [sampleRecord]))).warned
      = false ∧
    (load_element_data (FetchOutcome.fetched 200 (Payload.elements [sampleRecord]))).rows.map
      (fun r => r.raw.period) = [PyVal.none] ∧
    (load_element_data (FetchOutcome.fetched 200 (Payload.elements [sampleRecord]))).rows.map
      (fun r => r.raw.category) = [PyVal.none] ∧
    PyVal.none ≠ PyVal.int 0 ∧
    PyVal.none ≠ PyVal.str "Unknown" ∧
    PyVal.none ≠ PyVal.str "unknown" := by
  refine ⟨by decide, by decide, by decide, by decide, by decide, by decide⟩

/-- C5 amended: on a successful fetch (with the
`electron_configuration` column present) the loader passes every record
through unchanged — no type coercion, no defaulting — and only adds the
`electron_display` column, formatted from `electron_configuration` when
that field is a string and `""` otherwise. -/
theorem C5_success_passthrough (els : List RawElem) (h : ecColumnPresent els = true) :
    (load_element_data (FetchOutcome.fetched 200 (Payload.elements els))).warned = false ∧
    (load_element_data (FetchOutcome.fetched 200 (Payload.elements els))).rows.map
      OutRow.raw = els ∧
    ∀ r ∈ (load_element_data (FetchOutcome.fetched 200 (Payload.elements els))).rows,
      r.electron_display = some (match r.raw.electron_configuration with
                                 | PyVal.str s => format_electron_configuration s
                                 | _ => "") := by
  simp only [load_element_data]
  rw [if_neg (by decide), if_pos h]
  refine ⟨rfl, ?_, ?_⟩
  · rw [List.map_map]
    exact List.map_id els
  · intro r hr
    rcases List.mem_map.mp hr with ⟨e, _, rfl⟩
    rfl

/-- C5 witness: the amended pass-through behaviour on the concrete
one-record dataset of the counterexample. -/
theorem C5_success_passthrough_witness :
    (load_element_data (FetchOutcome.fetched 200 (Payload.elements [sampleRecord]))).rows.map
      OutRow.raw = [sampleRecord] :=
  (C5_success_passthrough [sampleRecord] (by decide)).2.1

/-! ## C6 — grid layout on the reference dataset -/

/-- C6: on the reference 118-element dataset, element number 1 occupies
main-block cell (row 1, col 1); the elements lacking a usable group are
exactly numbers 57-71 and 89-103, and they fill the two dedicated rows in
increasing number order, one column per element; placeholder cells
"La-Lu" and "Ac-Lr" occupy (period 6, column 3) and (period 7,
column 3); and no two elements claim the same main-block (col, row)
cell. -/
theorem C6_reference_layout :
    (mainCell refDataset 1 1).map (fun e => e.number) = some (PyVal.int 1) ∧
    (refDataset.filter (fun e => pyIsNull e.group)).map (fun e => e.number) =
      ((List.range 15).map (fun i => PyVal.int (Int.ofNat (57 + i)))) ++
        ((List.range 15).map (fun i => PyVal.int (Int.ofNat (89 + i)))) ∧
    (lanthanideRow refDataset).map (fun e => e.number) =
      ((List.range 15).map (fun i => PyVal.int (Int.ofNat (57 + i)))) ∧
    (actinideRow refDataset).map (fun e => e.number) =
      ((List.range 15).map (fun i => PyVal.int (Int.ofNat (89 + i)))) ∧
    mainCell refDataset 6 3 = some lanthanidesPlaceholder ∧
    mainCell refDataset 7 3 = some actinidesPlaceholder ∧
    lanthanidesPlaceholder.symbol = PyVal.str "La-Lu" ∧
    actinidesPlaceholder.symbol = PyVal.str "Ac-Lr" ∧
    (mainBlockPositions refDataset).Pairwise (· ≠ ·) := by
  refine ⟨by decide, by decide, by decide, by decide, by decide, by decide, by decide,
    by decide, by decide⟩

/-! ## C8 — end-to-end Oxygen details on the fallback dataset -/

/-- C8: on the fallback dataset, selecting element number 8 yields a
details card whose header shows symbol "O", name "Oxygen", atomic mass
within 0.001 of 15.999, and whose category is the normalized fallback
color key of "diatomic nonmetal" (the stored category "nonmetal"). -/
theorem C8_oxygen_details :
    ∃ e, process_click fallback_elements Option.none (some 8) = some e ∧
      ∃ hd, create_element_card_header e = Except.ok hd ∧
        hd.symbol = "O" ∧ hd.number = 8 ∧ hd.name = "Oxygen" ∧
        |hd.atomic_mass - mkRat 15999 1000| ≤ mkRat 1 1000 ∧
        (hd.category = "diatomic nonmetal" ∨
          some hd.category = colorKey_spec "diatomic nonmetal") := by
  refine ⟨fbOxygen, by decide, ⟨"O", 8, mkRat 15999 1000, "Oxygen", "nonmetal"⟩, rfl,
    rfl, rfl, rfl, ?_, Or.inr (by decide)⟩
  rw [sub_self, abs_zero]
  decide

/-! ## C9 — placeholder view on NoSelection / unknown id -/

/-- C9: rendering details with no selection produces the
prompt-to-select placeholder (not an error), and a click on an id absent
from the dataset leaves the selection empty so the same placeholder is
rendered. -/
theorem C9_placeholder_view (df : List RawElem) (n : Int)
    (h : ∀ e ∈ df, pyMatch e.number (PyVal.int n) = false) :
    display_element_details Option.none = Except.ok DetailsView.placeholder ∧
    display_element_details (process_click df Option.none (some n)) =
      Except.ok DetailsView.placeholder := by
  refine ⟨rfl, ?_⟩
  simp only [process_click]
  by_cases h0 : (n == 0) = true
  · rw [if_pos h0]
    rfl
  · rw [if_neg h0]
    rw [List.find?_eq_none.mpr (fun e he => by simp [h e he])]
    rfl

/-- C9 witness: the concrete fallback dataset with the unknown id 9999
renders the placeholder. -/
theorem C9_placeholder_view_witness :
    display_element_details (process_click fallback_elements Option.none (some 9999)) =
      Except.ok DetailsView.placeholder :=
  (C9_placeholder_view fallback_elements 9999 (by decide)).2

/-! ## C10 — null fields and the sidebar filters -/

/-- C10 counterexample: the claim says an element with a missing
category is excluded from the filtered view even when every available
category/phase/period/group value is selected; but the category options
are not `dropna()`d, so for a dataset whose only category value is null
the all-selected option lists keep the null-category element in the
filtered view (pandas `isin` matches null against a null in the
selection). -/
theorem C10_filter_counterexample :
    pyIsNull nullCatRecord.category = true ∧
    categoryOptions nullCatDataset = [PyVal.none] ∧
    filter_elements nullCatDataset (categoryOptions nullCatDataset)
      (phaseOptions nullCatDataset) (periodOptions nullCatDataset)
      (groupOptions nullCatDataset) = [nullCatRecord] := by
  refine ⟨by decide, by decide, by decide⟩

/-- C10 amended: the phase, period and group options are `dropna()`d, so
null is never selectable there and an element whose phase, period or
group is missing is excluded from the filtered view for every selection
drawn from those options — in particular, elements stored without a
group (the lanthanide/actinide representation) never appear; the same
does not hold for a missing category, whose options list can offer
null. -/
theorem C10_filter_null_exclusion (df : List RawElem)
    (selCats selPhases selPeriods selGroups : List PyVal)
    (hPh : ∀ v ∈ selPhases, pyIsNull v = false)
    (hPer : ∀ v ∈ selPeriods, pyIsNull v = false)
    (hG : ∀ v ∈ selGroups, pyIsNull v = false) :
    (∀ v ∈ phaseOptions df, pyIsNull v = false) ∧
    (∀ v ∈ periodOptions df, pyIsNull v = false) ∧
    (∀ v ∈ groupOptions df, pyIsNull v = false) ∧
    (∀ e ∈ df, (pyIsNull e.phase || pyIsNull e.period || pyIsNull e.group) = true →
      e ∉ filter_elements df selCats selPhases selPeriods selGroups) := by
  have optionsNotNull : ∀ (vals : List PyVal) (v : PyVal),
      v ∈ uniqueVals (vals.filter (fun w => !pyIsNull w)) → pyIsNull v = false := by
    intro vals v hv
    have hmem := mem_of_mem_uniqueVals hv
    have := (List.mem_filter.mp hmem).2
    simpa using this
  refine ⟨fun v hv => optionsNotNull _ v hv, fun v hv => optionsNotNull _ v hv,
    fun v hv => optionsNotNull _ v hv, ?_⟩
  intro e _ hnull hmem
  have hpred := (List.mem_filter.mp hmem).2
  simp only [Bool.and_eq_true] at hpred
  obtain ⟨⟨⟨_, hph⟩, hper⟩, hg⟩ := hpred
  have notNullSel : ∀ (field : PyVal) (sel : List PyVal),
      (∀ v ∈ sel, pyIsNull v = false) → pyIsNull field = true →
      pandasIsin field sel = true → False := by
    intro field sel hsel hfield hin
    rw [eq_none_of_pyIsNull hfield] at hin
    rcases List.any_eq_true.mp hin with ⟨w, hw, hmatch⟩
    rw [eq_none_of_pyMatch_none hmatch] at hw
    have := hsel PyVal.none hw
    simp [pyIsNull] at this
  simp only [Bool.or_eq_true] at hnull
  rcases hnull with (hfield | hfield) | hfield
  · exact notNullSel e.phase selPhases hPh hfield hph
  · exact notNullSel e.period selPeriods hPer hfield hper
  · exact notNullSel e.group selGroups hG hfield hg

/-- C10 witness: on the reference dataset, Lanthanum (number 57, stored
without a group) is excluded from the filtered view even with every
available phase/period/group option selected. -/
theorem C10_filter_null_exclusion_witness :
    mkRefElem 57 ∉ filter_elements refDataset (categoryOptions refDataset)
      (phaseOptions refDataset) (periodOptions refDataset) (groupOptions refDataset) :=
  (C10_filter_null_exclusion refDataset (categoryOptions refDataset)
      (phaseOptions refDataset) (periodOptions refDataset) (groupOptions refDataset)
      (by decide) (by decide) (by decide)).2.2.2
    (mkRefElem 57) (by decide) (by decide)

end PeriodicTable
